import Mathlib

/-!
Verification development for the nutrition goal & analytics engine of the
"Suivre mes Calories" application.

The arithmetic of the JavaScript source is embedded over `ℚ`: every numeric
literal appearing in the source (`6.25`, `1.2`, `7700`, …) is exactly
representable as a binary double, and on the inputs considered here the
JavaScript double computations coincide with exact rational arithmetic.
`Math.round` is embedded as `jsRound` (floor of `x + 1/2`, JavaScript's
half-up rounding).
-/

namespace SuivreCalories

/-- A user profile, as held by `ProfileScreen.js` (fields `weight`, `height`,
`age`, `gender`, `activityLevel`, parsed to numbers by `parseFloat`/`parseInt`
before use). -/
structure Profile where
  weight : ℚ
  height : ℚ
  age : ℚ
  gender : String
  activityLevel : String
deriving DecidableEq

/-- `calculateBMR` from `src/frontend/src/screens/ProfileScreen.js` (lines
39–50): Mifflin–St Jeor, `+5` when `profile.gender === 'homme'`, otherwise
`-161`. -/
def calculateBMR (p : Profile) : ℚ :=
  if p.gender = "homme" then
    10 * p.weight + 6.25 * p.height - 5 * p.age + 5
  else
    10 * p.weight + 6.25 * p.height - 5 * p.age - 161

/-- The member names an object literal inherits from `Object.prototype`: for
these strings `levels[level]` is not `undefined` but the inherited member
(a function, or `Object.prototype` itself for `__proto__`) — all truthy. -/
def objectPrototypeKeys : List String :=
  ["constructor", "hasOwnProperty", "isPrototypeOf", "propertyIsEnumerable",
   "toLocaleString", "toString", "valueOf", "__proto__", "__defineGetter__",
   "__defineSetter__", "__lookupGetter__", "__lookupSetter__"]

/-- The value of the expression `levels[profile.activityLevel] || 1.2`: a
number for one of the five own keys (or via the fallback), or a truthy
non-numeric member inherited from `Object.prototype`. -/
inductive ActivityMultiplier where
  | num (q : ℚ)
  | inheritedMember (name : String)
deriving DecidableEq

/-- `getActivityMultiplier` from `ProfileScreen.js` (lines 52–61): a lookup in
the object literal `{sedentaire: 1.2, leger: 1.375, modere: 1.55,
actif: 1.725, tresActif: 1.9}` with `|| 1.2` as fallback. The five own keys
yield their numbers; a member name inherited from `Object.prototype` (such as
"toString") yields that truthy inherited member, so the `|| 1.2` fallback does
not fire; only a key absent from the whole prototype chain gives `undefined`
(falsy) and hence the fallback 1.2. -/
def getActivityMultiplier (level : String) : ActivityMultiplier :=
  if level = "sedentaire" then .num 1.2
  else if level = "leger" then .num 1.375
  else if level = "modere" then .num 1.55
  else if level = "actif" then .num 1.725
  else if level = "tresActif" then .num 1.9
  else if level ∈ objectPrototypeKeys then .inheritedMember level
  else .num 1.2

/-- A JavaScript arithmetic result: a (rational-valued) number or NaN. -/
inductive JSNumber where
  | num (q : ℚ)
  | nan
deriving DecidableEq

/-- `calculateTDEE` from `ProfileScreen.js` (lines 63–65):
`calculateBMR() * getActivityMultiplier()`. When the multiplier is an
inherited prototype member rather than a number, the multiplication yields
NaN. -/
def calculateTDEE (p : Profile) : JSNumber :=
  match getActivityMultiplier p.activityLevel with
  | .num m => .num (calculateBMR p * m)
  | .inheritedMember _ => .nan

/-- JavaScript `Math.round`: rounds half-up (toward `+∞`). -/
def jsRound (q : ℚ) : ℤ :=
  ⌊q + 1 / 2⌋

/-- The goal selection held by `GoalSettings.js`: `type` is one of `'perte'`,
`'maintien'`, `'prise'`; `weeklyChange` is the weekly rate in kg (parsed by
`parseFloat`). -/
structure Goals where
  type : String
  weeklyChange : ℚ
deriving DecidableEq

/-- The hard-coded base of `calculateDailyCalories` in
`src/frontend/src/components/GoalSettings.js` (line 24), carrying the comment
"À remplacer par le calcul réel basé sur le profil". -/
def baseCalories : ℚ := 2000

/-- The `switch` of `calculateDailyCalories` (`GoalSettings.js` lines 27–35):
`-(7700 * weeklyChange) / 7` for `'perte'`, `+(7700 * weeklyChange) / 7` for
`'prise'`, and `0` otherwise. -/
def adjustment (g : Goals) : ℚ :=
  if g.type = "perte" then -(7700 * g.weeklyChange) / 7
  else if g.type = "prise" then (7700 * g.weeklyChange) / 7
  else 0

/-- `calculateDailyCalories` from `GoalSettings.js` (lines 23–38):
`Math.round(baseCalories + adjustment)`. -/
def calculateDailyCalories (g : Goals) : ℤ :=
  jsRound (baseCalories + adjustment g)

/-- The calorie goal the specification prescribes: `round(TDEE + delta)` where
TDEE is computed from the profile (defined when the TDEE is a number). Stated
to be compared against the source's `calculateDailyCalories`, which uses the
hard-coded base instead. -/
def specCalorieGoal (p : Profile) (g : Goals) : Option ℤ :=
  match calculateTDEE p with
  | .num t => some (jsRound (t + adjustment g))
  | .nan => none

/-- The trend-significance threshold appearing in `renderCaloriesTrend` of
`src/unnamed/part_008` (line 58): the literal `10` in
`analysis.calories.trend.slope > 10`. -/
def trendSignificanceThreshold : ℚ := 10

/-- The significance condition of `renderCaloriesTrend` (`src/unnamed/part_008`
line 58): the text " (changement significatif)" is rendered exactly when
`slope > 10` — the signed slope, not its absolute value. -/
def isSignificantChange (slope : ℚ) : Prop :=
  slope > trendSignificanceThreshold

instance (slope : ℚ) : Decidable (isSignificantChange slope) := by
  unfold isSignificantChange; infer_instance

/-- The three regularity tiers rendered by `renderMealTimingSection` of
`src/unnamed/part_010` (line 139): "Excellente", "Bonne", "À améliorer". -/
inductive ConsistencyTier where
  | excellente
  | bonne
  | aAmeliorer
deriving DecidableEq

/-- The tier selection of `renderMealTimingSection` (`src/unnamed/part_010`
line 139): `data.consistency < 1 ? 'Excellente' : data.consistency < 2 ?
'Bonne' : 'À améliorer'`. -/
def consistencyTier (c : ℚ) : ConsistencyTier :=
  if c < 1 then .excellente
  else if c < 2 then .bonne
  else .aAmeliorer

/-- Quality rank of a tier, smaller is better: excellente 0, bonne 1,
aAmeliorer 2. -/
def tierRank : ConsistencyTier → ℕ
  | .excellente => 0
  | .bonne => 1
  | .aAmeliorer => 2

/-- The GoalTargets record of the specification (§3): daily calorie goal in
kcal and the three macro goals in grams. -/
structure GoalTargets where
  calorie_goal : ℚ
  protein_goal : ℚ
  carb_goal : ℚ
  fat_goal : ℚ
deriving DecidableEq

/-- Modelled from the spec: the macro-split step of the GoalCalculator is not
implemented anywhere in the repository's sources (only its consumers are), so
it is taken from §4.1: grams are the 20% / 50% / 30% calorie shares divided by
4, 4 and 9 kcal per gram respectively. -/
def macroTargets (calorieGoal : ℚ) : GoalTargets :=
  { calorie_goal := calorieGoal
    protein_goal := 0.20 * calorieGoal / 4
    carb_goal := 0.50 * calorieGoal / 4
    fat_goal := 0.30 * calorieGoal / 9 }

/-- The calorie content of a GoalTargets' macro amounts at 4 / 4 / 9 kcal per
gram of protein / carbohydrate / fat. -/
def macroKcalSum (t : GoalTargets) : ℚ :=
  t.protein_goal * 4 + t.carb_goal * 4 + t.fat_goal * 9

/-- The rounding tolerance of the macro-sum invariant: the smallest unit
causing a 1 g rounding difference is one gram of the densest macro, fat,
worth 9 kcal. -/
def macroTolerance : ℚ := 9

/-- The four meal types of the data model (§3). -/
inductive MealType where
  | breakfast
  | lunch
  | dinner
  | snack
deriving DecidableEq

/-- A meal entry of the data model (§3): id, timestamp, meal type, calories
and macro grams. -/
structure MealEntry where
  id : ℕ
  timestamp : ℤ
  mealType : MealType
  calories : ℚ
  protein : ℚ
  carb : ℚ
  fat : ℚ
deriving DecidableEq

/-- A period aggregate of the data model (§3): total calories/macros,
per-meal-type calorie subtotals, entry count, and the average calories per
entry. -/
structure PeriodAggregate where
  totalCalories : ℚ
  totalProtein : ℚ
  totalCarb : ℚ
  totalFat : ℚ
  breakfastCalories : ℚ
  lunchCalories : ℚ
  dinnerCalories : ℚ
  snackCalories : ℚ
  entryCount : ℕ
  averageCalories : ℚ
deriving DecidableEq

/-- Calorie subtotal of the entries of one meal type. -/
def subtotal (t : MealType) (entries : List MealEntry) : ℚ :=
  ((entries.filter fun e => decide (e.mealType = t)).map MealEntry.calories).sum

/-- Modelled from the spec: the Aggregator component is not implemented
anywhere in the repository's sources (only its consumers are), so it is taken
from §4.2: a simple sum/average fold over the entries of one period bucket,
producing totals, per-meal-type subtotals, the entry count, and the average
(zero on an empty bucket rather than a division by zero). -/
def aggregate (entries : List MealEntry) : PeriodAggregate :=
  { totalCalories := (entries.map MealEntry.calories).sum
    totalProtein := (entries.map MealEntry.protein).sum
    totalCarb := (entries.map MealEntry.carb).sum
    totalFat := (entries.map MealEntry.fat).sum
    breakfastCalories := subtotal .breakfast entries
    lunchCalories := subtotal .lunch entries
    dinnerCalories := subtotal .dinner entries
    snackCalories := subtotal .snack entries
    entryCount := entries.length
    averageCalories :=
      if entries.length = 0 then 0
      else (entries.map MealEntry.calories).sum / entries.length }

/-- A sample breakfast entry, used to instantiate aggregation statements. -/
def sampleBreakfast : MealEntry :=
  ⟨1, 0, .breakfast, 450, 20, 60, 12⟩

/-- A sample dinner entry, used to instantiate aggregation statements. -/
def sampleDinner : MealEntry :=
  ⟨2, 1, .dinner, 700, 35, 80, 25⟩

/-- C1 counterexample: the profile (weight=70, height=175, age=30, male)
yields BMR 1648.75, not the 1753.75 given in the claim's parenthetical
example (10·70 + 6.25·175 − 5·30 + 5 = 700 + 1093.75 − 150 + 5 = 1648.75). -/
theorem bmr_example_value_cex :
    calculateBMR ⟨70, 175, 30, "homme", "modere"⟩ = 1648.75 ∧
    (1648.75 : ℚ) ≠ 1753.75 := by
  constructor
  · norm_num [calculateBMR]
  · norm_num

/-- C1 (amended): for every profile with weight > 0, height > 0, age ≥ 1, the
BMR is the Mifflin–St Jeor value (`+5` male, `−161` female), TDEE is BMR times
the activity multiplier 1.2 / 1.375 / 1.55 / 1.725 / 1.9 of the profile's
level, and the example profile (70, 175, 30, male) yields exactly 1648.75. -/
theorem goalCalculator_formulas (p : Profile)
    (hw : 0 < p.weight) (hh : 0 < p.height) (ha : 1 ≤ p.age) :
    (p.gender = "homme" →
      calculateBMR p = 10 * p.weight + 6.25 * p.height - 5 * p.age + 5) ∧
    (p.gender = "femme" →
      calculateBMR p = 10 * p.weight + 6.25 * p.height - 5 * p.age - 161) ∧
    (p.activityLevel = "sedentaire" →
      calculateTDEE p = .num (calculateBMR p * 1.2)) ∧
    (p.activityLevel = "leger" →
      calculateTDEE p = .num (calculateBMR p * 1.375)) ∧
    (p.activityLevel = "modere" →
      calculateTDEE p = .num (calculateBMR p * 1.55)) ∧
    (p.activityLevel = "actif" →
      calculateTDEE p = .num (calculateBMR p * 1.725)) ∧
    (p.activityLevel = "tresActif" →
      calculateTDEE p = .num (calculateBMR p * 1.9)) ∧
    calculateBMR ⟨70, 175, 30, "homme", "modere"⟩ = 1648.75 := by
  refine ⟨fun h => ?_, fun h => ?_, fun h => ?_, fun h => ?_, fun h => ?_,
    fun h => ?_, fun h => ?_, ?_⟩
  · simp [calculateBMR, h]
  · simp +decide [calculateBMR, h]
  · simp [calculateTDEE, getActivityMultiplier, h]
  · simp +decide [calculateTDEE, getActivityMultiplier, h]
  · simp +decide [calculateTDEE, getActivityMultiplier, h]
  · simp +decide [calculateTDEE, getActivityMultiplier, h]
  · simp +decide [calculateTDEE, getActivityMultiplier, h]
  · norm_num [calculateBMR]

/-- C1 witness: the amended statement instantiated at the example profile. -/
theorem goalCalculator_formulas_witness :
    ((0 : ℚ) < 70 ∧ (0 : ℚ) < 175 ∧ (1 : ℚ) ≤ 30) ∧
    calculateBMR ⟨70, 175, 30, "homme", "modere"⟩ = 1648.75 :=
  ⟨⟨by norm_num, by norm_num, by norm_num⟩,
   (goalCalculator_formulas ⟨70, 175, 30, "homme", "modere"⟩ (by norm_num)
     (by norm_num) (by norm_num)).2.2.2.2.2.2.2⟩

/-- C2: the code computes the daily calorie goal from the hard-coded base 2000
(comment: "À remplacer par le calcul réel basé sur le profil"), not from the
profile's TDEE. At the scenario goals (lose, 0.5 kg/week) it returns 1450;
the profile-based value round(TDEE + delta) for (60, 165, 25, female, active)
is 1771, with TDEE 2320.55625 and delta −550. -/
theorem dailyCalories_ignores_profile :
    calculateDailyCalories ⟨"perte", 1/2⟩ = 1450 ∧
    calculateTDEE ⟨60, 165, 25, "femme", "actif"⟩ = .num 2320.55625 ∧
    specCalorieGoal ⟨60, 165, 25, "femme", "actif"⟩ ⟨"perte", 1/2⟩ = some 1771 ∧
    adjustment ⟨"perte", 1/2⟩ = -550 := by
  refine ⟨?_, ?_, ?_, ?_⟩ <;>
  · simp +decide only [calculateDailyCalories, specCalorieGoal, jsRound,
      baseCalories, adjustment, calculateTDEE, calculateBMR,
      getActivityMultiplier]
    norm_num

/-- C3 counterexample: at the invalid profile (weight = −5) the calculation
returns the plain number 898.75 — the very same value it returns for the
strictly valid profile (1, 165.4, 30, male) — and a negative weekly rate is
likewise processed into the plain value 3100; no error signal exists. -/
theorem invalid_profile_no_signal_cex :
    ((-5 : ℚ) ≤ 0) ∧
    calculateBMR ⟨-5, 175, 30, "homme", "modere"⟩ = 898.75 ∧
    ((0 : ℚ) < 1 ∧ (0 : ℚ) < 165.4 ∧ (1 : ℚ) ≤ 30) ∧
    calculateBMR ⟨1, 165.4, 30, "homme", "modere"⟩ = 898.75 ∧
    calculateDailyCalories ⟨"perte", -1⟩ = 3100 := by
  refine ⟨by norm_num, ?_, by norm_num, ?_, ?_⟩
  · norm_num [calculateBMR]
  · norm_num [calculateBMR]
  · simp +decide only [calculateDailyCalories, jsRound, baseCalories, adjustment]
    norm_num

/-- C3 (amended): the goal calculation performs no input validation — for
weight ≤ 0, height ≤ 0, age < 1, or weekly rate < 0 it still applies the
unmodified formulas to the raw values and returns an ordinary numeric result,
signaling no InvalidProfile error and substituting no default. -/
theorem noValidation_formulas (p : Profile) (g : Goals)
    (hp : p.weight ≤ 0 ∨ p.height ≤ 0 ∨ p.age < 1) (hg : g.weeklyChange < 0) :
    calculateBMR p =
      (if p.gender = "homme" then 10 * p.weight + 6.25 * p.height - 5 * p.age + 5
       else 10 * p.weight + 6.25 * p.height - 5 * p.age - 161) ∧
    calculateDailyCalories g = jsRound (baseCalories + adjustment g) :=
  ⟨rfl, rfl⟩

/-- C3 witness: the amended statement instantiated at weight = −5 and weekly
rate = −1. -/
theorem noValidation_formulas_witness :
    ((-5 : ℚ) ≤ 0 ∨ (175 : ℚ) ≤ 0 ∨ (30 : ℚ) < 1) ∧ ((-1 : ℚ) < 0) ∧
    calculateBMR ⟨-5, 175, 30, "homme", "modere"⟩ =
      (if "homme" = "homme" then 10 * (-5) + 6.25 * 175 - 5 * 30 + 5
       else 10 * (-5) + 6.25 * 175 - 5 * 30 - 161) :=
  ⟨Or.inl (by norm_num), by norm_num,
   (noValidation_formulas ⟨-5, 175, 30, "homme", "modere"⟩ ⟨"perte", -1⟩
     (Or.inl (by norm_num)) (by norm_num)).1⟩

/-- C4 counterexample: at goals (lose, 1 kg/week) the code returns 900 as an
ordinary success value although 900 is far below the safety floor 1.2 × BMR
(= 1978.5 for the profile (70, 175, 30, male)); no InfeasibleGoal signal and
no clamping occurs. -/
theorem infeasible_goal_no_signal_cex :
    calculateDailyCalories ⟨"perte", 1⟩ = 900 ∧
    (900 : ℚ) < 1.2 * calculateBMR ⟨70, 175, 30, "homme", "modere"⟩ := by
  constructor
  · simp +decide only [calculateDailyCalories, jsRound, baseCalories, adjustment]
    norm_num
  · norm_num [calculateBMR]

/-- C4 (amended): the code has no safety floor — even when the computed goal
is below 1.2 × BMR of the profile, `calculateDailyCalories` still returns
round(2000 + delta) unchanged, neither clamping nor signaling InfeasibleGoal. -/
theorem noSafetyFloor (p : Profile) (g : Goals)
    (h : (calculateDailyCalories g : ℚ) < 1.2 * calculateBMR p) :
    calculateDailyCalories g = jsRound (baseCalories + adjustment g) :=
  rfl

/-- C4 witness: the amended statement instantiated at goals (lose, 1 kg/week)
and the profile (70, 175, 30, male). -/
theorem noSafetyFloor_witness :
    ((calculateDailyCalories ⟨"perte", 1⟩ : ℚ)
      < 1.2 * calculateBMR ⟨70, 175, 30, "homme", "modere"⟩) ∧
    calculateDailyCalories ⟨"perte", 1⟩ =
      jsRound (baseCalories + adjustment ⟨"perte", 1⟩) := by
  have h : (calculateDailyCalories ⟨"perte", 1⟩ : ℚ)
      < 1.2 * calculateBMR ⟨70, 175, 30, "homme", "modere"⟩ := by
    have h9 : calculateDailyCalories ⟨"perte", 1⟩ = 900 := by
      simp +decide only [calculateDailyCalories, jsRound, baseCalories, adjustment]
      norm_num
    rw [h9]
    norm_num [calculateBMR]
  exact ⟨h, noSafetyFloor ⟨70, 175, 30, "homme", "modere"⟩ ⟨"perte", 1⟩ h⟩

/-- C5: for every calorie goal, the macro grams of the 20/50/30 split at
4/4/9 kcal per gram sum back to the calorie goal exactly, hence within the
rounding tolerance. -/
theorem macro_sum_invariant (c : ℚ) :
    |macroKcalSum (macroTargets c) - c| ≤ macroTolerance := by
  have h : macroKcalSum (macroTargets c) = c := by
    simp only [macroKcalSum, macroTargets]
    ring
  rw [h, sub_self, abs_zero]
  norm_num [macroTolerance]

/-- C6: the aggregate of a collection of meal entries is invariant under
permutation of the collection — the sum/average fold is order-independent. -/
theorem aggregate_perm_invariant (l1 l2 : List MealEntry) (h : l1.Perm l2) :
    aggregate l1 = aggregate l2 := by
  have hc := (h.map MealEntry.calories).sum_eq
  have hp := (h.map MealEntry.protein).sum_eq
  have hb := (h.map MealEntry.carb).sum_eq
  have hf := (h.map MealEntry.fat).sum_eq
  have hn := h.length_eq
  have hs : ∀ t : MealType, subtotal t l1 = subtotal t l2 := fun t =>
    ((h.filter fun (e : MealEntry) => decide (e.mealType = t)).map
      MealEntry.calories).sum_eq
  simp [aggregate, hc, hp, hb, hf, hn, hs .breakfast, hs .lunch, hs .dinner,
    hs .snack]

/-- C6 witness: two concrete two-entry collections that are permutations of
each other aggregate identically. -/
theorem aggregate_perm_invariant_witness :
    ([sampleBreakfast, sampleDinner] : List MealEntry).Perm
      [sampleDinner, sampleBreakfast] ∧
    aggregate [sampleBreakfast, sampleDinner] =
      aggregate [sampleDinner, sampleBreakfast] :=
  ⟨List.Perm.swap sampleDinner sampleBreakfast [],
   aggregate_perm_invariant _ _ (List.Perm.swap sampleDinner sampleBreakfast [])⟩

/-- C7 counterexample: the slope −50 exceeds the significance threshold 10 in
absolute value, yet the code's condition `slope > 10` does not classify it as
a significant change. -/
theorem significance_ignores_sign_cex :
    ¬ isSignificantChange (-50) ∧ |(-50 : ℚ)| > trendSignificanceThreshold := by
  constructor
  · norm_num [isSignificantChange, trendSignificanceThreshold]
  · norm_num [trendSignificanceThreshold]

/-- C7 (amended): the change is annotated significant exactly when the signed
slope exceeds 10; this agrees with the |slope| rule on nonnegative slopes, but
a strongly decreasing series (slope < −10) is never annotated significant. -/
theorem significance_signed_threshold (s : ℚ) :
    (isSignificantChange s ↔ trendSignificanceThreshold < s) ∧
    (s < -trendSignificanceThreshold → ¬ isSignificantChange s) ∧
    (0 ≤ s → (isSignificantChange s ↔ trendSignificanceThreshold < |s|)) := by
  refine ⟨Iff.rfl, fun h hs => ?_, fun h => ?_⟩
  · unfold isSignificantChange trendSignificanceThreshold at hs
    unfold trendSignificanceThreshold at h
    linarith
  · unfold isSignificantChange
    rw [abs_of_nonneg h]

/-- C7 witness: the amended statement instantiated at slope −50. -/
theorem significance_signed_threshold_witness :
    ¬ isSignificantChange (-50) :=
  (significance_signed_threshold (-50)).2.1
    (by norm_num [trendSignificanceThreshold])

/-- C8: the tier assignment is monotone — a smaller consistency value never
receives a worse tier, in the order Excellente > Bonne > À améliorer with the
two fixed boundaries 1 and 2. -/
theorem consistencyTier_monotone (c1 c2 : ℚ) (h : c1 ≤ c2) :
    tierRank (consistencyTier c1) ≤ tierRank (consistencyTier c2) := by
  unfold consistencyTier
  split_ifs <;> simp [tierRank] <;> linarith

/-- C8 witness: the monotonicity instantiated at 1/2 ≤ 3. -/
theorem consistencyTier_monotone_witness :
    ((1 : ℚ)/2 ≤ 3) ∧
    tierRank (consistencyTier (1/2)) ≤ tierRank (consistencyTier 3) :=
  ⟨by norm_num, consistencyTier_monotone (1/2) 3 (by norm_num)⟩

/-- C9: the male constant +5 is applied exactly when the gender string is
'homme'; every other value — including 'male' — takes the female branch −161,
and the function returns the formula value without any error. -/
theorem bmr_gender_fallback (w h a : ℚ) (g lvl : String) (hg : g ≠ "homme") :
    calculateBMR ⟨w, h, a, g, lvl⟩ = 10 * w + 6.25 * h - 5 * a - 161 ∧
    calculateBMR ⟨w, h, a, "male", lvl⟩ = 10 * w + 6.25 * h - 5 * a - 161 ∧
    calculateBMR ⟨w, h, a, "homme", lvl⟩ = 10 * w + 6.25 * h - 5 * a + 5 := by
  refine ⟨?_, ?_, ?_⟩ <;> simp +decide [calculateBMR, hg]

/-- C9 witness: the statement instantiated at the unrecognized gender
'autre'. -/
theorem bmr_gender_fallback_witness :
    ("autre" ≠ "homme") ∧
    calculateBMR ⟨80, 180, 40, "autre", "modere"⟩ =
      10 * 80 + 6.25 * 180 - 5 * 40 - 161 :=
  ⟨by decide, (bmr_gender_fallback 80 180 40 "autre" "modere" (by decide)).1⟩

/-- C10 counterexample: "toString" is outside the five recognized keys, yet
`levels["toString"]` finds the truthy `Object.prototype.toString` through the
prototype chain, so the `|| 1.2` fallback does not fire: the multiplier is the
inherited member, not 1.2, and the TDEE is NaN, not the sedentary TDEE. -/
theorem activity_fallback_cex :
    ("toString" ∉
      (["sedentaire", "leger", "modere", "actif", "tresActif"] : List String)) ∧
    getActivityMultiplier "toString" ≠ ActivityMultiplier.num 1.2 ∧
    getActivityMultiplier "toString" = .inheritedMember "toString" ∧
    calculateTDEE ⟨70, 175, 30, "homme", "toString"⟩ = .nan := by
  refine ⟨by decide, ?_, ?_, ?_⟩ <;>
    simp +decide [getActivityMultiplier, calculateTDEE, objectPrototypeKeys]

/-- C10 (amended): for every activity-level string outside the five recognized
keys, the behavior splits on the prototype chain — a string that is also not a
member name inherited from `Object.prototype` yields the sedentary multiplier
1.2 and a silently sedentary TDEE with no error; a string naming an inherited
member (such as "toString") yields that truthy member, the `|| 1.2` fallback
does not fire, and the TDEE is NaN. -/
theorem activity_fallback (p : Profile)
    (h : p.activityLevel ∉
      (["sedentaire", "leger", "modere", "actif", "tresActif"] : List String)) :
    (p.activityLevel ∉ objectPrototypeKeys →
      getActivityMultiplier p.activityLevel = .num 1.2 ∧
      calculateTDEE p = .num (calculateBMR p * 1.2)) ∧
    (p.activityLevel ∈ objectPrototypeKeys →
      getActivityMultiplier p.activityLevel = .inheritedMember p.activityLevel ∧
      calculateTDEE p = .nan) := by
  simp only [List.mem_cons, List.not_mem_nil, or_false, not_or] at h
  obtain ⟨h1, h2, h3, h4, h5⟩ := h
  refine ⟨fun hp => ?_, fun hp => ?_⟩ <;>
    constructor <;>
    simp [getActivityMultiplier, calculateTDEE, h1, h2, h3, h4, h5, hp]

/-- C10 witness: the statement instantiated at the unrecognized level
'marathon' (absent from the whole prototype chain) and at the inherited
member name 'toString'. -/
theorem activity_fallback_witness :
    ("marathon" ∉
      (["sedentaire", "leger", "modere", "actif", "tresActif"] : List String)) ∧
    getActivityMultiplier "marathon" = .num 1.2 ∧
    calculateTDEE ⟨70, 175, 30, "homme", "toString"⟩ = .nan :=
  ⟨by decide,
   ((activity_fallback ⟨70, 175, 30, "homme", "marathon"⟩ (by decide)).1
     (by decide)).1,
   ((activity_fallback ⟨70, 175, 30, "homme", "toString"⟩ (by decide)).2
     (by decide)).2⟩

end SuivreCalories
